import Mathlib

/-!
Verification of the authenticated API-access layer of the portfolio
dashboard: the token store (`src/lib/auth/tokenStorage.ts`), the response
parser, refresh coordinator and fetch wrapper (`src/lib/api/http.ts`).

The TypeScript code is shallowly embedded: `localStorage` becomes an
association list guarded by a browser-availability flag, the module-level
`refreshPromise` becomes an explicit `Option` promise-id field of an
`HttpState`, network responses are supplied by an explicit environment,
and JavaScript truthiness on optional strings is modelled by `truthy`.
-/

namespace Portfolio

/-- JavaScript truthiness of a `string | null | undefined` value:
`null`/`undefined` and the empty string are falsy. -/
def truthy : Option String → Bool
  | some s => !s.isEmpty
  | none => false

/-! ## Token Store (`tokenStorage.ts`) -/

/-- `localStorage` together with the `isBrowser()` guard: when `browser` is
`false` (server-side rendering) no storage is available. -/
structure Storage where
  browser : Bool
  items : List (String × String)
  deriving Repr, DecidableEq

/-- `localStorage.getItem` -/
def storageGet (s : Storage) (k : String) : Option String :=
  (s.items.find? (fun kv => kv.1 == k)).map (fun kv => kv.2)

/-- `localStorage.setItem` (replaces any previous value of the key) -/
def storageSet (s : Storage) (k v : String) : Storage :=
  { s with items := (k, v) :: s.items.filter (fun kv => kv.1 != k) }

/-- `localStorage.removeItem` -/
def storageRemove (s : Storage) (k : String) : Storage :=
  { s with items := s.items.filter (fun kv => kv.1 != k) }

def ACCESS_TOKEN_KEY : String := "accessToken"

def REFRESH_TOKEN_KEY : String := "refreshToken"

/-- `StoredTokens` from `tokenStorage.ts`. -/
structure StoredTokens where
  accessToken : String
  refreshToken : String
  deriving Repr, DecidableEq

namespace tokenStorage

/-- `tokenStorage.getAccessToken`: `null` outside the browser, else the
stored value. -/
def getAccessToken (s : Storage) : Option String :=
  if s.browser then storageGet s ACCESS_TOKEN_KEY else none

/-- `tokenStorage.getRefreshToken` -/
def getRefreshToken (s : Storage) : Option String :=
  if s.browser then storageGet s REFRESH_TOKEN_KEY else none

/-- `tokenStorage.setTokens`: writes both keys; no-op outside the browser. -/
def setTokens (s : Storage) (t : StoredTokens) : Storage :=
  if s.browser then
    storageSet (storageSet s ACCESS_TOKEN_KEY t.accessToken) REFRESH_TOKEN_KEY t.refreshToken
  else s

/-- `tokenStorage.clearTokens`: removes both keys; no-op outside the browser. -/
def clearTokens (s : Storage) : Storage :=
  if s.browser then
    storageRemove (storageRemove s ACCESS_TOKEN_KEY) REFRESH_TOKEN_KEY
  else s

end tokenStorage

/-! ## Response parsing (`parseResponse` in `http.ts`) -/

/-- The declared fields of `ApiErrorPayload` (`http.ts`); the open index
signature for extra keys is not needed by any claim and is omitted. -/
structure ErrorPayload where
  timestamp : Option String := none
  status : Option Nat := none
  error : Option String := none
  message : Option String := none
  path : Option String := none
  deriving Repr, DecidableEq

/-- `class ApiError extends Error`. -/
structure ApiError where
  message : String
  status : Nat
  payload : Option ErrorPayload
  deriving Repr, DecidableEq

/-- A settled `fetch` `Response` as `parseResponse` consumes it:
its status, and the JSON parse of its body text (`none` models an empty
body text, for which the code leaves `data` undefined). -/
structure Response where
  status : Nat
  body : Option ErrorPayload
  deriving Repr, DecidableEq

/-- `Response.ok`: status in the range 200–299. -/
def responseOk (status : Nat) : Bool :=
  200 ≤ status && status < 300

instance {α β : Type} [DecidableEq α] [DecidableEq β] : DecidableEq (Except α β) := fun x y =>
  match x, y with
  | .ok a, .ok b => if h : a = b then .isTrue (by rw [h]) else .isFalse (by simp [h])
  | .error a, .error b => if h : a = b then .isTrue (by rw [h]) else .isFalse (by simp [h])
  | .ok _, .error _ => .isFalse (by simp)
  | .error _, .ok _ => .isFalse (by simp)

/-- Outcome of `parseResponse`, plus whether the body text was read
(`await response.text()` executed). -/
structure ParseResult where
  result : Except ApiError (Option ErrorPayload)
  bodyRead : Bool
  deriving Repr, DecidableEq

/-- `parseResponse` (`http.ts`): 204 short-circuits to `undefined` before
the body is read; otherwise the text is read and parsed, a non-ok status
throws an `ApiError` whose message is
`data?.message || data?.error || "API request failed with status N"`
(JavaScript `||`, so empty strings are passed over). -/
def parseResponse (r : Response) : ParseResult :=
  if r.status = 204 then
    { result := .ok none, bodyRead := false }
  else
    let data := r.body
    if responseOk r.status then
      { result := .ok data, bodyRead := true }
    else
      let message :=
        match data with
        | some d =>
          if truthy d.message then d.message.getD ""
          else if truthy d.error then d.error.getD ""
          else "API request failed with status " ++ toString r.status
        | none => "API request failed with status " ++ toString r.status
      { result := .error ⟨message, r.status, data⟩, bodyRead := true }

/-! ## Refresh coordinator (`refreshTokens` in `http.ts`)

The module-level `let refreshPromise: Promise<boolean> | null = null` is
modelled by `refreshInFlight : Option Nat` holding the identity of the one
pending promise; `refreshCalls` counts network calls issued to the refresh
endpoint. The body of `refreshTokens` up to issuing the `fetch` contains no
`await`, so under the cooperative single-threaded runtime it executes
atomically — it is embedded as the step function `refreshTokensSync`. The
`.then/.catch/.finally` continuation that runs when the fetch settles is
`refreshSettle`. -/

structure HttpState where
  storage : Storage
  refreshInFlight : Option Nat
  refreshCalls : Nat
  nextPid : Nat
  deriving Repr, DecidableEq

/-- What the synchronous prefix of one `refreshTokens()` invocation
returns: the in-flight shared promise, an immediate `false`, or a freshly
started refresh (one network call issued). -/
inductive RefreshSyncResult where
  | awaitExisting (pid : Nat)
  | immediateFalse
  | started (pid : Nat)
  deriving Repr, DecidableEq

/-- The synchronous prefix of `refreshTokens`: return the shared promise if
one is in flight; return `false` if the stored refresh token is falsy;
otherwise issue the single network call and publish the shared promise. -/
def refreshTokensSync (s : HttpState) : RefreshSyncResult × HttpState :=
  match s.refreshInFlight with
  | some p => (.awaitExisting p, s)
  | none =>
    if truthy (tokenStorage.getRefreshToken s.storage) then
      (.started s.nextPid,
        { s with refreshInFlight := some s.nextPid,
                 refreshCalls := s.refreshCalls + 1,
                 nextPid := s.nextPid + 1 })
    else (.immediateFalse, s)

/-- The refresh endpoint's JSON body, `(await response.json()) as
StoredTokens`: either field may be absent or empty in the actual payload. -/
structure TokenResponse where
  accessToken : Option String
  refreshToken : Option String
  deriving Repr, DecidableEq

/-- How the network resolves the refresh `fetch`: rejection (network
error), or a response with its `ok` flag and JSON body (`none` = the body
was not valid JSON, so `response.json()` rejects into the `.catch`). -/
inductive RefreshFetchOutcome where
  | networkError
  | response (ok : Bool) (body : Option TokenResponse)
  deriving Repr, DecidableEq

/-- The `.then(...).catch(() => false)` chain of `refreshTokens`: `false` on
network error, non-ok status, unparsable body or missing token fields; on
success store both tokens and return `true`. -/
def refreshHandler (st : Storage) (out : RefreshFetchOutcome) : Bool × Storage :=
  match out with
  | .networkError => (false, st)
  | .response ok body =>
    if !ok then (false, st)
    else
      match body with
      | none => (false, st)
      | some d =>
        if truthy d.accessToken && truthy d.refreshToken then
          (true, tokenStorage.setTokens st ⟨d.accessToken.getD "", d.refreshToken.getD ""⟩)
        else (false, st)

/-- Settling the in-flight refresh promise: run the handler chain and then
the `.finally(() => { refreshPromise = null; })`. -/
def refreshSettle (out : RefreshFetchOutcome) (s : HttpState) : Bool × HttpState :=
  ((refreshHandler s.storage out).1,
    { s with storage := (refreshHandler s.storage out).2, refreshInFlight := none })

/-- One complete awaited `refreshTokens()` call in a sequential execution:
run the synchronous prefix, then (unless it returned `false` immediately)
await the settlement of the pending promise, whose network outcome is
`out`. -/
def refreshTokensRun (out : RefreshFetchOutcome) (s : HttpState) : Bool × HttpState :=
  match refreshTokensSync s with
  | (.immediateFalse, s1) => (false, s1)
  | (.started _, s1) => refreshSettle out s1
  | (.awaitExisting _, s1) => refreshSettle out s1

/-- `n` further invocations of `refreshTokens()` interleaved while the
promise is pending: each runs its synchronous prefix atomically (there is
no suspension point before `return refreshPromise`). -/
def concurrentCalls : Nat → HttpState → List RefreshSyncResult × HttpState
  | 0, s => ([], s)
  | n + 1, s =>
    let (r, s1) := refreshTokensSync s
    let (rs, s2) := concurrentCalls n s1
    (r :: rs, s2)

/-- The boolean a caller's returned promise eventually resolves to, given
the assignment `v` of settled values to promise ids. -/
def resolveVal (v : Nat → Bool) : RefreshSyncResult → Bool
  | .awaitExisting p => v p
  | .immediateFalse => false
  | .started p => v p

/-! ## Request dispatcher (`apiFetch` in `http.ts`) -/

/-- A `Headers` object: names are case-insensitive, so they are stored
lower-cased; `set` replaces. -/
abbrev HeaderMap := List (String × String)

/-- Header-name case folding (charwise ASCII lowering). -/
def headerLower (s : String) : String := String.mk (s.data.map Char.toLower)

def headersSet (hs : HeaderMap) (n v : String) : HeaderMap :=
  (headerLower n, v) :: hs.filter (fun kv => kv.1 != headerLower n)

def headersHas (hs : HeaderMap) (n : String) : Bool :=
  hs.any (fun kv => kv.1 == headerLower n)

def headersGet (hs : HeaderMap) (n : String) : Option String :=
  (hs.find? (fun kv => kv.1 == headerLower n)).map (fun kv => kv.2)

/-- `new Headers(record)`: enter the record's entries in order. -/
def headersOfRecord (r : List (String × String)) : HeaderMap :=
  r.foldl (fun acc kv => headersSet acc kv.1 kv.2) []

/-- `options.body : BodyInit | Record<string, unknown> | null` (with
`undefined` for an absent field). `undef` covers `undefined` and `null`,
which `apiFetch` treats alike; a `record` value carries the text
`JSON.stringify` would produce for it. -/
inductive ProvidedBody where
  | undef
  | formData (id : Nat)
  | str (s : String)
  | record (json : String)
  deriving Repr, DecidableEq

/-- `JSON.stringify(s)` for a string `s` (escaping of special characters
inside `s` is not needed by any claim). -/
def jsonQuote (s : String) : String := "\"" ++ s ++ "\""

/-- `ApiRequestOptions` (`http.ts`); `signal` carries no semantics in this
model. `isFormData : Bool` folds `undefined` into `false`, matching the
truthiness test `!options.isFormData`. -/
structure ApiRequestOptions where
  method : Option String := none
  body : ProvidedBody := .undef
  headers : List (String × String) := []
  isFormData : Bool := false
  requiresAuth : Option Bool := none
  deriving Repr, DecidableEq

/-- The body value handed to `fetch`: a `FormData` instance, a string, or a
non-string `BodyInit`-cast record (the `options.isFormData &&
typeof providedBody !== "string"` passthrough). -/
inductive SentBody where
  | formData (id : Nat)
  | str (s : String)
  | rawRecord (json : String)
  deriving Repr, DecidableEq

/-- One request as handed to `fetch` (with `cache: "no-store"` implicit). -/
structure SentRequest where
  url : String
  method : String
  headers : HeaderMap
  body : Option SentBody
  deriving Repr, DecidableEq

/-- The header/body/url assembly of `apiFetch` before the network call.
`baseUrl` stands for the configured `API_BASE_URL` (its defining `config`
module is not part of the analysed sources). -/
def buildRequest (baseUrl path : String) (options : ApiRequestOptions) (storage : Storage) :
    SentRequest :=
  let url := if path.startsWith "http" then path else baseUrl ++ path
  let headers0 := headersOfRecord options.headers
  let requiresAuth := options.requiresAuth.getD true
  let (headers1, body) :=
    match options.body with
    | .formData id => (headers0, some (SentBody.formData id))
    | .undef => (headers0, none)
    | .str s =>
      let h := if !headersHas headers0 "Content-Type" && !options.isFormData then
          headersSet headers0 "Content-Type" "application/json"
        else headers0
      (h, some (SentBody.str (jsonQuote s)))
    | .record j =>
      let h := if !headersHas headers0 "Content-Type" && !options.isFormData then
          headersSet headers0 "Content-Type" "application/json"
        else headers0
      let b := if options.isFormData then SentBody.rawRecord j else SentBody.str j
      (h, some b)
  let headers2 :=
    if requiresAuth then
      if truthy (tokenStorage.getAccessToken storage) then
        headersSet headers1 "Authorization"
          ("Bearer " ++ (tokenStorage.getAccessToken storage).getD "")
      else headers1
    else headers1
  let method := match options.method with
    | some m => if m.isEmpty then "GET" else m
    | none => "GET"
  { url := url, method := method, headers := headers2, body := body }

/-- What one logical `apiFetch` call delivers to its caller: the parsed
body, a thrown `ApiError`, or the rejection of `fetch` itself (transport
failure, which `apiFetch` does not convert). -/
inductive FetchResult where
  | ok (data : Option ErrorPayload)
  | apiError (e : ApiError)
  | networkError
  deriving Repr, DecidableEq

def parseToResult (r : Response) : FetchResult :=
  match (parseResponse r).result with
  | .ok d => .ok d
  | .error e => .apiError e

/-- `apiFetch` (`http.ts`). The network is an explicit environment:
`resps` lists the responses the main endpoint returns to successive
attempts (an exhausted list models `fetch` rejecting), and `ro` resolves
the refresh endpoint's fetch if a refresh is started. Returns the
caller-visible result, the final state, and the requests sent to the main
endpoint in order. The recursion mirrors `return apiFetch<T>(path,
options, false)` — the retry consumes the next response with the retry
flag cleared. -/
def apiFetch (baseUrl path : String) (options : ApiRequestOptions)
    (ro : RefreshFetchOutcome) (shouldRetry : Bool) (resps : List Response)
    (s : HttpState) : FetchResult × HttpState × List SentRequest :=
  match resps with
  | [] => (.networkError, s, [])
  | resp :: rest =>
    let req := buildRequest baseUrl path options s.storage
    let requiresAuth := options.requiresAuth.getD true
    if resp.status == 401 && requiresAuth && shouldRetry then
      let run := refreshTokensRun ro s
      if run.1 then
        let retried := apiFetch baseUrl path options ro false rest run.2
        (retried.1, retried.2.1, req :: retried.2.2)
      else
        (parseToResult resp,
          { run.2 with storage := tokenStorage.clearTokens run.2.storage }, [req])
    else
      (parseToResult resp, s, [req])

/-! ## Claim extractor

The JWT claim extractor (`decode` / `deriveUser`) described in spec §4.2 has
no counterpart among the analysed sources (the auth context present uses a
mock identity), so it is modelled from the spec. -/

/-- A claim value as found in a decoded JWT payload: a string or a number
(the spec's examples use `userId: 7`), to be coerced to string. -/
inductive ClaimVal where
  | str (s : String)
  | num (n : Int)
  deriving Repr, DecidableEq

/-- Coercion of a claim value to string (`String(7) = "7"`). -/
def ClaimVal.asString : ClaimVal → String
  | .str s => s
  | .num n => toString n

/-- Modelled from the spec: the `Claims` mapping of §3/§4.2 — the decoder's
recognized keys, each possibly absent. -/
structure Claims where
  userId : Option ClaimVal := none
  sub : Option ClaimVal := none
  email : Option String := none
  name : Option String := none
  roles : Option (List String) := none
  authorities : Option (List String) := none
  deriving Repr, DecidableEq

/-- The caller-supplied fallback record of `deriveUser`. -/
structure UserFallback where
  id : Option String := none
  email : Option String := none
  name : Option String := none
  deriving Repr, DecidableEq

/-- `SessionUser` of spec §3. -/
structure SessionUser where
  id : String
  email : String
  name : String
  roles : Option (List String)
  deriving Repr, DecidableEq

/-- First present, non-empty string in the list, else `""`. -/
def firstNonEmpty : List (Option String) → String
  | [] => ""
  | none :: rest => firstNonEmpty rest
  | some s :: rest => if s.isEmpty then firstNonEmpty rest else s

/-- The local part of an email address: everything before the first `@`. -/
def localPart (email : String) : String :=
  String.mk (email.data.takeWhile (fun ch => ch != '@'))

/-- Modelled from the spec: `deriveUser(token, fallback)` of §4.2, taking
the already-decoded claims.
`id := claims.userId ?? claims.sub ?? fallback.id ?? fallback.email ?? ""`
(first non-empty, coerced to string);
`email := claims.email ?? fallback.email ?? ""`;
`name := claims.name ?? fallback.name ?? (local-part of email) ?? ""`;
`roles := claims.roles ?? claims.authorities`. -/
def deriveUser (c : Claims) (fb : UserFallback) : SessionUser :=
  let email := c.email.getD (fb.email.getD "")
  { id := firstNonEmpty
      [c.userId.map ClaimVal.asString, c.sub.map ClaimVal.asString, fb.id, fb.email]
    email := email
    name := c.name.getD (fb.name.getD (localPart email))
    roles := match c.roles with
      | some rs => some rs
      | none => c.authorities }

/-! ## Helper lemmas -/

theorem find?_filter_of_imp {α : Type} (p q : α → Bool) (l : List α)
    (h : ∀ x, p x = true → q x = true) : (l.filter q).find? p = l.find? p := by
  induction l with
  | nil => rfl
  | cons a l ih =>
    by_cases hq : q a = true
    · rw [List.filter_cons_of_pos hq]
      by_cases hp : p a = true
      · rw [List.find?_cons_of_pos _ hp, List.find?_cons_of_pos _ hp]
      · rw [List.find?_cons_of_neg _ (by simpa using hp),
          List.find?_cons_of_neg _ (by simpa using hp), ih]
    · have hp : p a = false := by
        cases hpa : p a
        · rfl
        · exact absurd (h a hpa) hq
      rw [List.filter_cons_of_neg (by simpa using hq),
        List.find?_cons_of_neg _ (by simp [hp]), ih]

theorem find?_filter_none {α : Type} (p q : α → Bool) (l : List α)
    (h : ∀ x, p x = true → q x = false) : (l.filter q).find? p = none := by
  induction l with
  | nil => rfl
  | cons a l ih =>
    by_cases hq : q a = true
    · have hp : p a = false := by
        cases hpa : p a
        · rfl
        · rw [h a hpa] at hq; exact absurd hq (by simp)
      rw [List.filter_cons_of_pos hq, List.find?_cons_of_neg _ (by simp [hp]), ih]
    · rw [List.filter_cons_of_neg (by simpa using hq), ih]

theorem storageGet_set_self (s : Storage) (k v : String) :
    storageGet (storageSet s k v) k = some v := by
  simp [storageGet, storageSet, List.find?]

theorem storageGet_set_other (s : Storage) (k v k' : String) (h : k' ≠ k) :
    storageGet (storageSet s k v) k' = storageGet s k' := by
  unfold storageGet storageSet
  simp only
  rw [List.find?_cons_of_neg _ (by simpa using Ne.symm h),
    find?_filter_of_imp _ _ _ (fun x hx => by
      have : x.1 = k' := by simpa using hx
      simp [this, h])]

theorem storageGet_remove_self (s : Storage) (k : String) :
    storageGet (storageRemove s k) k = none := by
  unfold storageGet storageRemove
  simp only
  rw [find?_filter_none _ _ _ (fun x hx => by
    have : x.1 = k := by simpa using hx
    simp [this])]
  rfl

theorem storageGet_remove_other (s : Storage) (k k' : String) (h : k' ≠ k) :
    storageGet (storageRemove s k) k' = storageGet s k' := by
  unfold storageGet storageRemove
  simp only
  rw [find?_filter_of_imp _ _ _ (fun x hx => by
    have : x.1 = k' := by simpa using hx
    simp [this, h])]

theorem firstNonEmpty_cons (o : Option String) (rest : List (Option String)) :
    firstNonEmpty (o :: rest) =
      if (o.getD "").isEmpty then firstNonEmpty rest else o.getD "" := by
  cases o with
  | none => simp [firstNonEmpty, String.isEmpty_iff]
  | some s => simp [firstNonEmpty]

/-! ## Claims -/

/-- C7: a response with status 204 parses to an empty result (`undefined`)
with no read of the response body and no error. -/
theorem parse204_empty (r : Response) (h : r.status = 204) :
    parseResponse r = { result := Except.ok none, bodyRead := false } := by
  simp [parseResponse, h]

/-- Witness for C7 at a concrete 204 response (its body is ignored). -/
theorem parse204_empty_witness :
    (⟨204, some { message := some "ignored" }⟩ : Response).status = 204 ∧
      parseResponse ⟨204, some { message := some "ignored" }⟩ =
        { result := Except.ok none, bodyRead := false } :=
  ⟨rfl, parse204_empty ⟨204, some { message := some "ignored" }⟩ rfl⟩

/-- C9: with storage available, `setTokens t` followed by the two getters
returns exactly `t.accessToken` and `t.refreshToken`; with storage
unavailable both getters return `null` and `setTokens` is a no-op (and,
the functions being total, no operation throws). -/
theorem tokenStore_roundtrip (s : Storage) (t : StoredTokens) :
    (s.browser = true →
      tokenStorage.getAccessToken (tokenStorage.setTokens s t) = some t.accessToken ∧
      tokenStorage.getRefreshToken (tokenStorage.setTokens s t) = some t.refreshToken) ∧
    (s.browser = false →
      tokenStorage.getAccessToken s = none ∧
      tokenStorage.getRefreshToken s = none ∧
      tokenStorage.setTokens s t = s) := by
  constructor
  · intro hb
    have hset : tokenStorage.setTokens s t =
        storageSet (storageSet s ACCESS_TOKEN_KEY t.accessToken)
          REFRESH_TOKEN_KEY t.refreshToken := by
      simp [tokenStorage.setTokens, hb]
    have hbrow : (storageSet (storageSet s ACCESS_TOKEN_KEY t.accessToken)
        REFRESH_TOKEN_KEY t.refreshToken).browser = true := by
      simp [storageSet, hb]
    constructor
    · rw [hset]
      unfold tokenStorage.getAccessToken
      rw [if_pos hbrow,
        storageGet_set_other _ _ _ _ (by decide),
        storageGet_set_self]
    · rw [hset]
      unfold tokenStorage.getRefreshToken
      rw [if_pos hbrow, storageGet_set_self]
  · intro hb
    refine ⟨?_, ?_, ?_⟩ <;>
      simp [tokenStorage.getAccessToken, tokenStorage.getRefreshToken,
        tokenStorage.setTokens, hb]

/-- Witness for C9 at a concrete browser-side store. -/
theorem tokenStore_roundtrip_witness :
    (Storage.mk true [("theme", "dark")]).browser = true ∧
    tokenStorage.getAccessToken
        (tokenStorage.setTokens ⟨true, [("theme", "dark")]⟩ ⟨"A1", "R1"⟩) = some "A1" ∧
    tokenStorage.getRefreshToken
        (tokenStorage.setTokens ⟨true, [("theme", "dark")]⟩ ⟨"A1", "R1"⟩) = some "R1" :=
  ⟨rfl, ((tokenStore_roundtrip ⟨true, [("theme", "dark")]⟩ ⟨"A1", "R1"⟩).1 rfl).1,
    ((tokenStore_roundtrip ⟨true, [("theme", "dark")]⟩ ⟨"A1", "R1"⟩).1 rfl).2⟩

/-- C4: `deriveUser` picks the id as the first non-empty among
`claims.userId`, `claims.sub`, `fallback.id`, `fallback.email`, each
coerced to string and an absent claim coerced to `""`; and on the spec's
concrete examples the derived fields are as the claim lists them. -/
theorem deriveUser_claim_precedence :
    (∀ (c : Claims) (fb : UserFallback),
      (deriveUser c fb).id =
        (if (c.userId.map ClaimVal.asString).getD "" ≠ "" then
          (c.userId.map ClaimVal.asString).getD ""
        else if (c.sub.map ClaimVal.asString).getD "" ≠ "" then
          (c.sub.map ClaimVal.asString).getD ""
        else if fb.id.getD "" ≠ "" then fb.id.getD ""
        else if fb.email.getD "" ≠ "" then fb.email.getD "" else "")) ∧
    (deriveUser { userId := some (.num 7), email := some "a@x.com" }
        { email := some "b@y.com", name := some "B" }).id = "7" ∧
    (deriveUser { userId := some (.num 7), email := some "a@x.com" }
        { email := some "b@y.com", name := some "B" }).email = "a@x.com" ∧
    (deriveUser { userId := some (.num 7) }
        { email := some "a@x.com", name := some "B" }).name = "B" ∧
    (deriveUser { email := some "a@x.com" } {}).name = "a" := by
  refine ⟨?_, by decide, by decide, by decide, by decide⟩
  intro c fb
  show firstNonEmpty _ = _
  rw [firstNonEmpty_cons, firstNonEmpty_cons, firstNonEmpty_cons, firstNonEmpty_cons]
  simp only [firstNonEmpty, String.isEmpty_iff]
  split_ifs <;> simp_all

/-- C8 counterexample: the body `{message: "", error: "boom"}` has its
`message` field present, yet the thrown `ApiError`'s message is the
`error` field's value `"boom"` (JavaScript `||` skips the falsy empty
string), so the message is not "the parsed body's message field if
present". -/
theorem apiErrorMessage_counterexample :
    (parseResponse ⟨500, some { message := some "", error := some "boom" }⟩).result =
      Except.error ⟨"boom", 500, some { message := some "", error := some "boom" }⟩ ∧
    (some { message := some "", error := some "boom" } : Option ErrorPayload).bind
        ErrorPayload.message = some "" ∧
    ("boom" : String) ≠ "" := by
  refine ⟨by decide, rfl, by decide⟩

/-- C8 (amended): a non-success, non-204 response throws an `ApiError`
carrying the response status and the parsed body as payload, whose message
is the body's `message` field if present and non-empty, else the body's
`error` field if present and non-empty, else
`"API request failed with status N"`. -/
theorem apiErrorMessage_selection (r : Response) (h : r.status < 200 ∨ 300 ≤ r.status) :
    (parseResponse r).result =
      Except.error
        { message :=
            match r.body with
            | some d =>
              if truthy d.message then d.message.getD ""
              else if truthy d.error then d.error.getD ""
              else "API request failed with status " ++ toString r.status
            | none => "API request failed with status " ++ toString r.status
          status := r.status
          payload := r.body } := by
  have h204 : ¬r.status = 204 := by omega
  have hok : responseOk r.status = false := by
    simp only [responseOk, Bool.and_eq_false_iff, decide_eq_false_iff_not, not_le, not_lt]
    omega
  simp [parseResponse, h204, hok]

/-- Witness for C8's amended theorem at a concrete 404 whose body carries
only an `error` field. -/
theorem apiErrorMessage_selection_witness :
    ((404 : Nat) < 200 ∨ (300 : Nat) ≤ 404) ∧
    (parseResponse ⟨404, some { error := some "nf" }⟩).result =
      Except.error ⟨"nf", 404, some { error := some "nf" }⟩ :=
  ⟨Or.inr (by decide),
    (apiErrorMessage_selection ⟨404, some { error := some "nf" }⟩
      (Or.inr (by decide))).trans (by decide)⟩

theorem refreshTokensSync_storage (s : HttpState) :
    (refreshTokensSync s).2.storage = s.storage := by
  unfold refreshTokensSync
  rcases h : s.refreshInFlight with _ | p <;> simp
  split <;> rfl

theorem refreshHandler_false (st : Storage) (out : RefreshFetchOutcome)
    (h : (refreshHandler st out).1 = false) : (refreshHandler st out).2 = st := by
  unfold refreshHandler at h ⊢
  rcases out with _ | ⟨ok, body⟩
  · rfl
  · rcases ok <;> rcases body with _ | d <;> simp_all
    split <;> simp_all

/-- C5: whenever `refreshTokens` resolves to `false` — no matter whether
through a network error, a non-success status, or missing tokens in the
response — the stored tokens are exactly what they were before the
attempt; only a successful refresh writes the store. -/
theorem refreshFailure_preserves_tokens (out : RefreshFetchOutcome) (s : HttpState)
    (h : (refreshTokensRun out s).1 = false) :
    (refreshTokensRun out s).2.storage = s.storage ∧
    tokenStorage.getAccessToken (refreshTokensRun out s).2.storage =
      tokenStorage.getAccessToken s.storage ∧
    tokenStorage.getRefreshToken (refreshTokensRun out s).2.storage =
      tokenStorage.getRefreshToken s.storage := by
  have hst : (refreshTokensRun out s).2.storage = s.storage := by
    have hsync := refreshTokensSync_storage s
    unfold refreshTokensRun at h ⊢
    revert h
    rcases hs : refreshTokensSync s with ⟨p | _ | p, s1⟩ <;>
      rw [hs] at hsync <;> intro h <;>
        simp only [refreshSettle] at h hsync ⊢
    · rw [refreshHandler_false _ _ h]
      exact hsync
    · exact hsync
    · rw [refreshHandler_false _ _ h]
      exact hsync
  exact ⟨hst, by rw [hst], by rw [hst]⟩

/-- Witness for C5: a network error during the refresh fetch leaves the
previously stored token pair in place. -/
theorem refreshFailure_preserves_tokens_witness :
    (refreshTokensRun .networkError
        ⟨⟨true, [("accessToken", "a0"), ("refreshToken", "r0")]⟩, none, 0, 0⟩).1 = false ∧
    (refreshTokensRun .networkError
        ⟨⟨true, [("accessToken", "a0"), ("refreshToken", "r0")]⟩, none, 0, 0⟩).2.storage =
      ⟨true, [("accessToken", "a0"), ("refreshToken", "r0")]⟩ :=
  ⟨by decide,
    (refreshFailure_preserves_tokens .networkError
      ⟨⟨true, [("accessToken", "a0"), ("refreshToken", "r0")]⟩, none, 0, 0⟩ (by decide)).1⟩

/-- C6: a `refreshTokens` call finding no refresh in flight and no stored
refresh token returns `false` immediately, leaving the state — including
the count of network calls to the refresh endpoint — untouched. -/
theorem refreshWithoutToken_immediate (out : RefreshFetchOutcome) (s : HttpState)
    (h1 : s.refreshInFlight = none)
    (h2 : tokenStorage.getRefreshToken s.storage = none) :
    refreshTokensSync s = (.immediateFalse, s) ∧
    refreshTokensRun out s = (false, s) ∧
    (refreshTokensRun out s).2.refreshCalls = s.refreshCalls := by
  have hsync : refreshTokensSync s = (.immediateFalse, s) := by
    simp [refreshTokensSync, h1, h2, truthy]
  have hrun : refreshTokensRun out s = (false, s) := by
    unfold refreshTokensRun
    rw [hsync]
  exact ⟨hsync, hrun, by rw [hrun]⟩

/-- Witness for C6 at an empty browser-side store. -/
theorem refreshWithoutToken_immediate_witness :
    (HttpState.mk ⟨true, []⟩ none 0 0).refreshInFlight = none ∧
    tokenStorage.getRefreshToken (HttpState.mk ⟨true, []⟩ none 0 0).storage = none ∧
    refreshTokensRun .networkError ⟨⟨true, []⟩, none, 0, 0⟩ = (false, ⟨⟨true, []⟩, none, 0, 0⟩) :=
  ⟨rfl, rfl,
    (refreshWithoutToken_immediate .networkError ⟨⟨true, []⟩, none, 0, 0⟩ rfl rfl).2.1⟩

theorem concurrentCalls_inFlight (n : Nat) (s : HttpState) (p : Nat)
    (h : s.refreshInFlight = some p) :
    concurrentCalls n s = (List.replicate n (.awaitExisting p), s) := by
  induction n with
  | zero => simp [concurrentCalls]
  | succ n ih =>
    have hsync : refreshTokensSync s = (.awaitExisting p, s) := by
      simp [refreshTokensSync, h]
    simp [concurrentCalls, hsync, ih, List.replicate_succ]

/-- C1: from an idle coordinator holding a refresh token, the first
`refreshTokens` call issues exactly one network call to the refresh
endpoint and publishes the shared promise; any number `n` of further calls
arriving while it is in flight issue no network call, leave the state
untouched, and all return that same promise, so all `n + 1` callers
resolve to the one settled boolean of the single underlying operation. -/
theorem singleFlight_refresh (s : HttpState) (n : Nat)
    (hidle : s.refreshInFlight = none)
    (htok : truthy (tokenStorage.getRefreshToken s.storage) = true) :
    (refreshTokensSync s).1 = .started s.nextPid ∧
    (refreshTokensSync s).2.refreshCalls = s.refreshCalls + 1 ∧
    (concurrentCalls n (refreshTokensSync s).2).1 =
      List.replicate n (.awaitExisting s.nextPid) ∧
    (concurrentCalls n (refreshTokensSync s).2).2 = (refreshTokensSync s).2 ∧
    ∀ v : Nat → Bool,
      ((refreshTokensSync s).1 :: (concurrentCalls n (refreshTokensSync s).2).1).map
          (resolveVal v) =
        List.replicate (n + 1) (v s.nextPid) := by
  have hsync : refreshTokensSync s =
      (.started s.nextPid,
        { s with refreshInFlight := some s.nextPid,
                 refreshCalls := s.refreshCalls + 1,
                 nextPid := s.nextPid + 1 }) := by
    simp [refreshTokensSync, hidle, htok]
  have hcc := concurrentCalls_inFlight n (refreshTokensSync s).2 s.nextPid
    (by rw [hsync])
  refine ⟨by rw [hsync], by rw [hsync], by rw [hcc], by rw [hcc], ?_⟩
  intro v
  rw [hcc, hsync]
  simp [resolveVal, List.map_replicate, List.replicate_succ]

/-- Witness for C1: three concurrent joiners of an in-flight refresh all
receive the started promise and resolve to its one value. -/
theorem singleFlight_refresh_witness :
    (HttpState.mk ⟨true, [("refreshToken", "r1")]⟩ none 0 0).refreshInFlight = none ∧
    truthy (tokenStorage.getRefreshToken
      (HttpState.mk ⟨true, [("refreshToken", "r1")]⟩ none 0 0).storage) = true ∧
    (concurrentCalls 3
        (refreshTokensSync ⟨⟨true, [("refreshToken", "r1")]⟩, none, 0, 0⟩).2).1 =
      List.replicate 3 (.awaitExisting 0) ∧
    ((refreshTokensSync ⟨⟨true, [("refreshToken", "r1")]⟩, none, 0, 0⟩).1 ::
        (concurrentCalls 3
          (refreshTokensSync ⟨⟨true, [("refreshToken", "r1")]⟩, none, 0, 0⟩).2).1).map
        (resolveVal (fun _ => true)) =
      List.replicate 4 true :=
  ⟨rfl, by decide,
    (singleFlight_refresh ⟨⟨true, [("refreshToken", "r1")]⟩, none, 0, 0⟩ 3 rfl
      (by decide)).2.2.1,
    (singleFlight_refresh ⟨⟨true, [("refreshToken", "r1")]⟩, none, 0, 0⟩ 3 rfl
      (by decide)).2.2.2.2 (fun _ => true)⟩

theorem getAccessToken_clear (st : Storage) :
    tokenStorage.getAccessToken (tokenStorage.clearTokens st) = none := by
  unfold tokenStorage.getAccessToken tokenStorage.clearTokens
  by_cases hb : st.browser = true
  · have hbrow : (storageRemove (storageRemove st ACCESS_TOKEN_KEY)
        REFRESH_TOKEN_KEY).browser = true := by simp [storageRemove, hb]
    rw [if_pos hb, if_pos hbrow, storageGet_remove_other _ _ _ (by decide),
      storageGet_remove_self]
  · rw [if_neg hb, if_neg hb]

theorem getRefreshToken_clear (st : Storage) :
    tokenStorage.getRefreshToken (tokenStorage.clearTokens st) = none := by
  unfold tokenStorage.getRefreshToken tokenStorage.clearTokens
  by_cases hb : st.browser = true
  · have hbrow : (storageRemove (storageRemove st ACCESS_TOKEN_KEY)
        REFRESH_TOKEN_KEY).browser = true := by simp [storageRemove, hb]
    rw [if_pos hb, if_pos hbrow, storageGet_remove_self]
  · rw [if_neg hb, if_neg hb]

theorem parseToResult_of_401 (r : Response) (h : r.status = 401) :
    ∃ e : ApiError, parseToResult r = .apiError e ∧ e.status = 401 ∧ e.payload = r.body := by
  unfold parseToResult parseResponse
  rw [h]
  norm_num [responseOk]

theorem apiFetch_noRetry (baseUrl path : String) (options : ApiRequestOptions)
    (ro : RefreshFetchOutcome) (r : Response) (rest : List Response) (s : HttpState) :
    apiFetch baseUrl path options ro false (r :: rest) s =
      (parseToResult r, s, [buildRequest baseUrl path options s.storage]) := by
  simp [apiFetch, Bool.and_false]

theorem apiFetch_false_sent_le (baseUrl path : String) (options : ApiRequestOptions)
    (ro : RefreshFetchOutcome) (resps : List Response) (s : HttpState) :
    (apiFetch baseUrl path options ro false resps s).2.2.length ≤ 1 := by
  cases resps with
  | nil => simp [apiFetch]
  | cons r rest =>
    rw [apiFetch_noRetry]
    simp

theorem apiFetch_true_sent_le (baseUrl path : String) (options : ApiRequestOptions)
    (ro : RefreshFetchOutcome) (resps : List Response) (s : HttpState) :
    (apiFetch baseUrl path options ro true resps s).2.2.length ≤ 2 := by
  cases resps with
  | nil => simp [apiFetch]
  | cons r rest =>
    simp only [apiFetch]
    split
    · split
      · have := apiFetch_false_sent_le baseUrl path options ro rest
          (refreshTokensRun ro s).2
        simpa using Nat.succ_le_succ this
      · simp
    · simp

/-- C2: an auth-required call that receives a 401, refreshes successfully,
and receives a 401 again on the retry surfaces the second 401 as an
`ApiError` built from the second response; exactly two requests to the main
endpoint are sent (the retry using the post-refresh store), and in general
a logical call never sends more than two. -/
theorem retryOnce_second401 (baseUrl path : String) (options : ApiRequestOptions)
    (ro : RefreshFetchOutcome) (s : HttpState) (r1 r2 : Response)
    (hauth : options.requiresAuth.getD true = true)
    (h1 : r1.status = 401) (h2 : r2.status = 401)
    (hrefresh : (refreshTokensRun ro s).1 = true) :
    (apiFetch baseUrl path options ro true [r1, r2] s).1 = parseToResult r2 ∧
    (∃ e : ApiError, parseToResult r2 = .apiError e ∧ e.status = 401 ∧
      e.payload = r2.body) ∧
    (apiFetch baseUrl path options ro true [r1, r2] s).2.2 =
      [buildRequest baseUrl path options s.storage,
        buildRequest baseUrl path options (refreshTokensRun ro s).2.storage] ∧
    ∀ (resps : List Response) (s' : HttpState),
      (apiFetch baseUrl path options ro true resps s').2.2.length ≤ 2 := by
  have hcond : (r1.status == 401 && options.requiresAuth.getD true && true) = true := by
    simp [h1, hauth]
  have hstep : apiFetch baseUrl path options ro true [r1, r2] s =
      (parseToResult r2, (refreshTokensRun ro s).2,
        [buildRequest baseUrl path options s.storage,
          buildRequest baseUrl path options (refreshTokensRun ro s).2.storage]) := by
    simp only [apiFetch, hcond, if_pos, hrefresh, if_true]
    simp [Bool.and_false]
  refine ⟨by rw [hstep], parseToResult_of_401 r2 h2, by rw [hstep], ?_⟩
  intro resps s'
  exact apiFetch_true_sent_le baseUrl path options ro resps s'

/-- Witness for C2: two concrete 401 responses around a successful
refresh; the caller sees the second response's `ApiError` and two sent
requests. -/
theorem retryOnce_second401_witness :
    ((⟨⟨true, [("accessToken", "a0"), ("refreshToken", "r0")]⟩, none, 0, 0⟩ :
        HttpState) = ⟨⟨true, [("accessToken", "a0"), ("refreshToken", "r0")]⟩, none, 0, 0⟩) ∧
    (refreshTokensRun (.response true (some ⟨some "a1", some "r1"⟩))
      ⟨⟨true, [("accessToken", "a0"), ("refreshToken", "r0")]⟩, none, 0, 0⟩).1 = true ∧
    (apiFetch "http://b" "/api/x" {} (.response true (some ⟨some "a1", some "r1"⟩)) true
        [⟨401, none⟩, ⟨401, some { message := some "still expired" }⟩]
        ⟨⟨true, [("accessToken", "a0"), ("refreshToken", "r0")]⟩, none, 0, 0⟩).1 =
      parseToResult ⟨401, some { message := some "still expired" }⟩ :=
  ⟨rfl, by decide,
    (retryOnce_second401 "http://b" "/api/x" {}
      (.response true (some ⟨some "a1", some "r1"⟩))
      ⟨⟨true, [("accessToken", "a0"), ("refreshToken", "r0")]⟩, none, 0, 0⟩
      ⟨401, none⟩ ⟨401, some { message := some "still expired" }⟩
      rfl rfl rfl (by decide)).1⟩

/-- C3: an auth-required call that receives a 401 and whose refresh
attempt returns `false` surfaces an `ApiError` with status 401 built from
the original response, and both stored tokens are cleared in the state the
call finishes with. -/
theorem noRetryWithoutRefresh (baseUrl path : String) (options : ApiRequestOptions)
    (ro : RefreshFetchOutcome) (s : HttpState) (r1 : Response) (rest : List Response)
    (hauth : options.requiresAuth.getD true = true)
    (h1 : r1.status = 401)
    (hrefresh : (refreshTokensRun ro s).1 = false) :
    (apiFetch baseUrl path options ro true (r1 :: rest) s).1 = parseToResult r1 ∧
    (∃ e : ApiError, parseToResult r1 = .apiError e ∧ e.status = 401 ∧
      e.payload = r1.body) ∧
    tokenStorage.getAccessToken
      (apiFetch baseUrl path options ro true (r1 :: rest) s).2.1.storage = none ∧
    tokenStorage.getRefreshToken
      (apiFetch baseUrl path options ro true (r1 :: rest) s).2.1.storage = none := by
  have hcond : (r1.status == 401 && options.requiresAuth.getD true && true) = true := by
    simp [h1, hauth]
  have hstep : apiFetch baseUrl path options ro true (r1 :: rest) s =
      (parseToResult r1,
        { (refreshTokensRun ro s).2 with
            storage := tokenStorage.clearTokens (refreshTokensRun ro s).2.storage },
        [buildRequest baseUrl path options s.storage]) := by
    simp only [apiFetch, hcond, if_pos, hrefresh]
    rfl
  refine ⟨by rw [hstep], parseToResult_of_401 r1 h1, ?_, ?_⟩
  · rw [hstep]
    exact getAccessToken_clear _
  · rw [hstep]
    exact getRefreshToken_clear _

/-- Witness for C3: a 401 followed by a rejected refresh clears the store
and delivers the original 401 `ApiError`. -/
theorem noRetryWithoutRefresh_witness :
    (refreshTokensRun (.response false none)
      ⟨⟨true, [("accessToken", "a0"), ("refreshToken", "r0")]⟩, none, 0, 0⟩).1 = false ∧
    tokenStorage.getAccessToken
      (apiFetch "http://b" "/api/x" {} (.response false none) true
        [⟨401, some { message := some "expired" }⟩]
        ⟨⟨true, [("accessToken", "a0"), ("refreshToken", "r0")]⟩, none, 0, 0⟩).2.1.storage =
      none :=
  ⟨by decide,
    (noRetryWithoutRefresh "http://b" "/api/x" {} (.response false none)
      ⟨⟨true, [("accessToken", "a0"), ("refreshToken", "r0")]⟩, none, 0, 0⟩
      ⟨401, some { message := some "expired" }⟩ [] rfl rfl (by decide)).2.2.1⟩

theorem headersGet_set_self (hs : HeaderMap) (n v : String) :
    headersGet (headersSet hs n v) n = some v := by
  simp [headersGet, headersSet, List.find?]

theorem headersGet_set_other (hs : HeaderMap) (n v m : String)
    (h : headerLower m ≠ headerLower n) :
    headersGet (headersSet hs n v) m = headersGet hs m := by
  unfold headersGet headersSet
  rw [List.find?_cons_of_neg _ (by simpa using Ne.symm h),
    find?_filter_of_imp _ _ _ (fun x hx => by
      have : x.1 = headerLower m := by simpa using hx
      simp [this, h])]

theorem headersGet_none_of_not_has (hs : HeaderMap) (n : String)
    (h : headersHas hs n = false) : headersGet hs n = none := by
  unfold headersGet
  cases hfind : hs.find? (fun kv => kv.1 == headerLower n) with
  | none => rfl
  | some kv =>
    have hmem := List.mem_of_find?_eq_some hfind
    have hp := List.find?_some hfind
    have : headersHas hs n = true := by
      unfold headersHas
      exact List.any_eq_true.mpr ⟨kv, hmem, hp⟩
    rw [this] at h
    exact absurd h (by simp)

/-- C10: a caller-supplied `Content-Type` header reaches the wire
unchanged — never replaced by `application/json`; when the caller supplies
none, the JSON default is present exactly when the body is a defined
non-`FormData` value that will be JSON-serialized (a structured record or
a string) and `isFormData` is not set. -/
theorem contentType_preserved (baseUrl path : String) (options : ApiRequestOptions)
    (st : Storage) :
    (headersHas (headersOfRecord options.headers) "Content-Type" = true →
      headersGet (buildRequest baseUrl path options st).headers "Content-Type" =
        headersGet (headersOfRecord options.headers) "Content-Type") ∧
    (headersHas (headersOfRecord options.headers) "Content-Type" = false →
      (headersGet (buildRequest baseUrl path options st).headers "Content-Type" =
          some "application/json" ↔
        (options.isFormData = false ∧
          ∃ payload : String,
            options.body = .str payload ∨ options.body = .record payload))) := by
  have hct : headerLower "Content-Type" ≠ headerLower "Authorization" := by
    decide
  constructor
  · intro hhas
    unfold buildRequest
    rcases options.body with _ | id | bs | bj <;>
      by_cases ha : options.requiresAuth.getD true = true <;>
        by_cases ht : truthy (tokenStorage.getAccessToken st) = true <;>
          simp [hhas, ha, ht, headersGet_set_other _ _ _ _ hct]
  · intro hhas
    have hnone := headersGet_none_of_not_has _ _ hhas
    unfold buildRequest
    rcases hb : options.body with _ | id | bs | bj <;>
      by_cases hf : options.isFormData = true <;>
        by_cases ha : options.requiresAuth.getD true = true <;>
          by_cases ht : truthy (tokenStorage.getAccessToken st) = true <;>
            simp [hhas, hf, ha, ht, headersGet_set_other _ _ _ _ hct,
              headersGet_set_self, hnone]

/-- Witness for C10: a caller-supplied `Content-Type: text/csv` on a
structured body is sent unchanged instead of `application/json`. -/
theorem contentType_preserved_witness :
    headersHas (headersOfRecord [("Content-Type", "text/csv")]) "Content-Type" = true ∧
    headersGet (buildRequest "http://b" "/api/x"
        { headers := [("Content-Type", "text/csv")], body := .record "\x7b\x7d" }
        ⟨true, []⟩).headers "Content-Type" = some "text/csv" :=
  ⟨by decide,
    ((contentType_preserved "http://b" "/api/x"
        { headers := [("Content-Type", "text/csv")], body := .record "\x7b\x7d" }
        ⟨true, []⟩).1 (by decide)).trans (by decide)⟩

end Portfolio
